import Mathlib

/-!
Shallow embedding of the Multisig Transaction Coordination Engine
(`multisig.service.ts` of StellarSwipe-Backends) and proofs of the
specification claims about it.

The Stellar SDK collaborators (key validation, Ed25519 verification,
signature hints, XDR decode/encode, Horizon loadAccount / submitTransaction)
are modelled as an explicit environment of pure functions; the TypeORM
repository is modelled as a list of records with find/save operations.
Exceptions thrown by the service are modelled with `Except`.
-/

namespace Multisig

/-- Lifecycle states of a pending transaction
(`PendingTransactionStatus` enum of `pending-transaction.entity.ts`,
as referenced by the service: PENDING, READY, SUBMITTED, FAILED, EXPIRED). -/
inductive TxStatus where
  | pending
  | ready
  | submitted
  | failed
  | expired
deriving DecidableEq, Repr

/-- `SUBMITTED`, `FAILED` and `EXPIRED` are the terminal states
(the statuses rejected by `submitSignature`, lines 384-392 of the service). -/
def TxStatus.isTerminal : TxStatus → Bool
  | .submitted => true
  | .failed => true
  | .expired => true
  | _ => false

/-- Printable name of a status, used in service error messages. -/
def TxStatus.name : TxStatus → String
  | .pending => "PENDING"
  | .ready => "READY"
  | .submitted => "SUBMITTED"
  | .failed => "FAILED"
  | .expired => "EXPIRED"

/-- One decorated signature inside a parsed envelope
(`tx.signatures` in the SDK: a 4-byte hint plus the raw signature,
both modelled as strings: hint bytes, base64 signature bytes). -/
structure DecoratedSig where
  hint : String
  signature : String
deriving DecidableEq, Repr

/-- Result of decoding an envelope with `new StellarSdk.Transaction(xdr, passphrase)`:
the transaction hash (hex of `tx.hash()`), the embedded decorated signatures,
and the optional `timeBounds?.maxTime` read by `createPendingTransaction`. -/
structure ParsedTx where
  hash : String
  signatures : List DecoratedSig
  maxTime : Option Nat
deriving DecidableEq, Repr

/-- A signer row of a Horizon `AccountResponse` (`{ key, weight }`). -/
structure HorizonSigner where
  key : String
  weight : Nat
deriving DecidableEq, Repr

/-- Thresholds of a Horizon `AccountResponse`. The DTO the service builds from
these marks every threshold optional (`thresholdMedium?: number`), and the
service guards `thresholdMedium` with `?? 1`; the fields are therefore
modelled as nullable. -/
structure HorizonThresholds where
  low_threshold : Option Nat
  med_threshold : Option Nat
  high_threshold : Option Nat
deriving DecidableEq, Repr

/-- The part of a Horizon `AccountResponse` the service reads. -/
structure HorizonAccount where
  thresholds : HorizonThresholds
  signers : List HorizonSigner
deriving DecidableEq, Repr

/-- Why `server.loadAccount` rejected. The service's `catch` block never
inspects the error, but the distinction matters to the specification
(`NotFound` vs a retryable `Unavailable`). -/
inductive LoadAccountError where
  | accountNotFound
  | transportFailure
deriving DecidableEq, Repr

/-- The fields of a rejected `server.submitTransaction` error that
`submitToNetwork` reads: `err?.response?.data?.extras?.result_codes?.transaction`
and `err?.message`. -/
structure HorizonSubmitError where
  resultCodeTransaction : Option String
  message : Option String
deriving DecidableEq, Repr

/-- The fields of a successful `server.submitTransaction` response that
`submitToNetwork` reads (`result.id ?? result.hash ?? null`). -/
structure HorizonSubmitOk where
  id : Option String
  hash : Option String
deriving DecidableEq, Repr

/-- The exceptions thrown by the service:
`BadRequestException`, `NotFoundException`, `ConflictException`. -/
inductive SvcError where
  | badRequest (msg : String)
  | notFound (msg : String)
  | conflict (msg : String)
deriving DecidableEq, Repr

/-- Environment of external collaborators (Stellar SDK and Horizon server),
as pure functions:
* `validKey k` — whether `StellarSdk.Keypair.fromPublicKey(k)` succeeds;
* `verify pk hashHex sigB64` — `keypair.verify(txHash, sigBytes)`;
* `signatureHint pk` — `keypair.signatureHint()`;
* `decodeTx xdr` — `new StellarSdk.Transaction(xdr, networkPassphrase)`,
  `none` when the constructor throws;
* `appendSig xdr pk sigB64` — result of `appendSignatureToXdr` (decode,
  push one decorated signature, re-encode);
* `loadAccount` — `server.loadAccount`;
* `submitTransaction xdr` — `server.submitTransaction` on the decoded envelope. -/
structure Env where
  validKey : String → Bool
  verify : String → String → String → Bool
  signatureHint : String → String
  decodeTx : String → Option ParsedTx
  appendSig : String → String → String → String
  loadAccount : String → Except LoadAccountError HorizonAccount
  submitTransaction : String → Except HorizonSubmitError HorizonSubmitOk

/-- `SignerInfoDto` of `multisig-status.dto.ts`. -/
structure SignerInfoDto where
  publicKey : String
  weight : Nat
  hasSigned : Bool
deriving DecidableEq, Repr

/-- `MultisigAccountStatusDto` of `multisig-status.dto.ts` (optional fields
modelled with `Option`). -/
structure MultisigAccountStatusDto where
  accountId : String
  isMultisig : Bool
  thresholdLow : Option Nat
  thresholdMedium : Option Nat
  thresholdHigh : Option Nat
  signers : List SignerInfoDto
  totalWeight : Nat
deriving DecidableEq, Repr

/-- One element of the `signatures` jsonb column of a `PendingTransaction`
(`{ publicKey, signature, weight }`). -/
structure SignatureEntry where
  publicKey : String
  signature : String
  weight : Nat
deriving DecidableEq, Repr

/-- The `PendingTransaction` entity as used by the service (timestamps as `Nat`;
`createdAt`/`updatedAt` bookkeeping omitted — no service logic reads them). -/
structure PendingTx where
  id : String
  accountId : String
  transactionXdr : String
  transactionHash : String
  status : TxStatus
  requiredThreshold : Nat
  collectedWeight : Nat
  signatures : List SignatureEntry
  pendingSigners : List String
  memo : Option String
  metadata : Option String
  expiresAtLedger : Option Nat
  submittedAt : Option Nat
  stellarTxId : Option String
deriving DecidableEq, Repr

/-- `CreatePendingTransactionDto` of `submit-signature.dto.ts`
(`metadata` kept opaque as a string). -/
structure CreatePendingTransactionDto where
  accountId : String
  transactionXdr : String
  memo : Option String
  metadata : Option String
deriving DecidableEq, Repr

/-- `SubmitSignatureDto` of `submit-signature.dto.ts`. -/
structure SubmitSignatureDto where
  pendingTransactionId : String
  signerPublicKey : String
  signature : String
deriving DecidableEq, Repr

/-- `SubmitTransactionResultDto` of `multisig-status.dto.ts`. -/
structure SubmitTransactionResultDto where
  success : Bool
  stellarTxId : Option String
  message : Option String
  pendingTransactionId : Option String
deriving DecidableEq, Repr

/-- The pending-transaction repository, modelled as the list of stored rows. -/
abbrev Store := List PendingTx

/-- `pendingTxRepo.findOne({ where: { id } })`. -/
def findOneById (store : Store) (id : String) : Option PendingTx :=
  List.find? (fun r => r.id == id) store

/-- `pendingTxRepo.findOne({ where: { transactionHash } })`. -/
def findOneByHash (store : Store) (h : String) : Option PendingTx :=
  List.find? (fun r => r.transactionHash == h) store

/-- `pendingTxRepo.save(r)`: update the row with the same primary key if it
exists, otherwise insert. -/
def saveRec (store : Store) (r : PendingTx) : Store :=
  if List.any store (fun x => x.id == r.id) then
    List.map (fun x => if x.id == r.id then r else x) store
  else
    store ++ [r]

-- ─── Service error messages ────────────────────────────────────────────────

def invalidKeyMessage (k : String) : String :=
  "Invalid Stellar public key: " ++ k

def accountNotFoundMessage (a : String) : String :=
  "Stellar account " ++ a ++ " not found"

def txNotFoundMessage (id : String) : String :=
  "Pending transaction " ++ id ++ " not found"

def dupHashMessage (id : String) : String :=
  "A pending transaction with this hash already exists: " ++ id

def badStatusMessage (st : TxStatus) : String :=
  "Cannot add signature to a transaction with status " ++ st.name

def dupSignerMessage (pk : String) : String :=
  "Signer " ++ pk ++ " has already submitted a signature"

def verifyFailedMessage : String := "Signature verification failed"

def notAuthorizedMessage (pk acc : String) : String :=
  pk ++ " is not an authorized signer for account " ++ acc

def notReadyMessage (r : PendingTx) : String :=
  "Transaction is not ready for submission. Current status: " ++ r.status.name ++
    ". Collected weight: " ++ toString r.collectedWeight ++ "/" ++
    toString r.requiredThreshold

-- ─── Service operations ────────────────────────────────────────────────────

/-- `validatePublicKey` helper: `Keypair.fromPublicKey` inside try/catch. -/
def validatePublicKey (env : Env) (k : String) : Except SvcError Unit :=
  if env.validKey k then .ok () else .error (.badRequest (invalidKeyMessage k))

/-- JavaScript `a > 1` on a possibly-undefined number (`undefined > 1` is false). -/
def optGtOne : Option Nat → Bool
  | some n => decide (n > 1)
  | none => false

/-- `MultisigService.getAccountMultisigStatus`. Note the catch-all around
`loadAccount`: every failure, whatever its cause, becomes
`NotFoundException`. -/
def getAccountMultisigStatus (env : Env) (accountId : String) :
    Except SvcError MultisigAccountStatusDto :=
  match validatePublicKey env accountId with
  | .error e => .error e
  | .ok _ =>
  match env.loadAccount accountId with
  | .error _ => .error (.notFound (accountNotFoundMessage accountId))
  | .ok account =>
    let rawSigners := account.signers
    let isMultisig :=
      decide (rawSigners.length > 1) ||
      optGtOne account.thresholds.med_threshold ||
      optGtOne account.thresholds.high_threshold
    let signerDtos := rawSigners.map
      (fun s => SignerInfoDto.mk s.key s.weight false)
    let totalWeight := rawSigners.foldl (fun sum s => sum + s.weight) 0
    .ok {
      accountId := accountId
      isMultisig := isMultisig
      thresholdLow := account.thresholds.low_threshold
      thresholdMedium := account.thresholds.med_threshold
      thresholdHigh := account.thresholds.high_threshold
      signers := signerDtos
      totalWeight := totalWeight }

/-- `MultisigService.extractSignaturesFromEnvelope`: for each decorated
signature of the envelope and each known signer, accept the pair when the
key parses (`validKey`, the try/catch), the 4-byte hints match, and the
signature verifies against the transaction hash. Accepted matches are
pushed in iteration order; there is no duplicate filtering. -/
def extractSignaturesFromEnvelope (env : Env) (tx : ParsedTx)
    (knownSigners : List SignerInfoDto) : List SignatureEntry :=
  tx.signatures.foldl (fun result decoratedSig =>
    knownSigners.foldl (fun result signer =>
      if env.validKey signer.publicKey &&
         decoratedSig.hint == env.signatureHint signer.publicKey &&
         env.verify signer.publicKey tx.hash decoratedSig.signature then
        result ++ [SignatureEntry.mk signer.publicKey decoratedSig.signature signer.weight]
      else result) result) []

/-- The entity built by `this.pendingTxRepo.create({...})` in
`createPendingTransaction`, after all checks passed: threshold snapshot
(`accountStatus.thresholdMedium ?? 1`), embedded-signature extraction,
initial weight/status, remaining pending signers. -/
def createdEntity (env : Env) (dto : CreatePendingTransactionDto)
    (newId : String) (txEnvelope : ParsedTx)
    (accountStatus : MultisigAccountStatusDto) : PendingTx :=
  let requiredThreshold := accountStatus.thresholdMedium.getD 1
  let pendingSigners := accountStatus.signers.map (fun s => s.publicKey)
  let preloadedSignatures :=
    extractSignaturesFromEnvelope env txEnvelope accountStatus.signers
  let collectedWeight := preloadedSignatures.foldl (fun s sig => s + sig.weight) 0
  let remainingPendingSigners := pendingSigners.filter
    (fun pk => (preloadedSignatures.find? (fun s => s.publicKey == pk)).isNone)
  { id := newId
    accountId := dto.accountId
    transactionXdr := dto.transactionXdr
    transactionHash := txEnvelope.hash
    status := if collectedWeight ≥ requiredThreshold then .ready else .pending
    requiredThreshold := requiredThreshold
    collectedWeight := collectedWeight
    signatures := preloadedSignatures
    pendingSigners := remainingPendingSigners
    memo := dto.memo
    metadata := dto.metadata
    -- source: `(txEnvelope as any).timeBounds?.maxTime ? null : null`
    expiresAtLedger := if txEnvelope.maxTime.isSome then none else none
    submittedAt := none
    stellarTxId := none }

/-- `MultisigService.createPendingTransaction`. `newId` stands for the
primary key the database generates on insert. -/
def createPendingTransaction (env : Env) (store : Store)
    (dto : CreatePendingTransactionDto) (newId : String) :
    Except SvcError (PendingTx × Store) :=
  match validatePublicKey env dto.accountId with
  | .error e => .error e
  | .ok _ =>
  match env.decodeTx dto.transactionXdr with
  | none => .error (.badRequest "Invalid transaction XDR")
  | some txEnvelope =>
    match findOneByHash store txEnvelope.hash with
    | some existing => .error (.conflict (dupHashMessage existing.id))
    | none =>
      match getAccountMultisigStatus env dto.accountId with
      | .error e => .error e
      | .ok accountStatus =>
      let entity := createdEntity env dto newId txEnvelope accountStatus
      .ok (entity, saveRec store entity)

/-- The record update performed by `submitSignature` once every check passed:
append the signature to the envelope and to `signatures`, add the signer's
weight, drop the signer from `pendingSigners`, recompute the status. -/
def signedEntity (env : Env) (pending : PendingTx) (dto : SubmitSignatureDto)
    (signerInfo : SignerInfoDto) : PendingTx :=
  let updatedXdr :=
    env.appendSig pending.transactionXdr dto.signerPublicKey dto.signature
  let newWeight := pending.collectedWeight + signerInfo.weight
  let newSignatures := pending.signatures ++
    [SignatureEntry.mk dto.signerPublicKey dto.signature signerInfo.weight]
  let newPendingSigners := pending.pendingSigners.filter
    (fun pk => pk != dto.signerPublicKey)
  let isReady := newWeight ≥ pending.requiredThreshold
  { pending with
    transactionXdr := updatedXdr
    collectedWeight := newWeight
    signatures := newSignatures
    pendingSigners := newPendingSigners
    status := if isReady then .ready else .pending }

/-- `MultisigService.submitSignature`. -/
def submitSignature (env : Env) (store : Store) (dto : SubmitSignatureDto) :
    Except SvcError (PendingTx × Store) :=
  match validatePublicKey env dto.signerPublicKey with
  | .error e => .error e
  | .ok _ =>
  match findOneById store dto.pendingTransactionId with
  | none => .error (.notFound (txNotFoundMessage dto.pendingTransactionId))
  | some pending =>
    if pending.status = .submitted ∨ pending.status = .expired ∨
       pending.status = .failed then
      .error (.badRequest (badStatusMessage pending.status))
    else
      match pending.signatures.find? (fun s => s.publicKey == dto.signerPublicKey) with
      | some _ => .error (.conflict (dupSignerMessage dto.signerPublicKey))
      | none =>
        if ¬ (env.verify dto.signerPublicKey pending.transactionHash dto.signature) then
          .error (.badRequest verifyFailedMessage)
        else
          match getAccountMultisigStatus env pending.accountId with
          | .error e => .error e
          | .ok accountStatus =>
          match accountStatus.signers.find?
              (fun s => s.publicKey == dto.signerPublicKey) with
          | none =>
            .error (.badRequest
              (notAuthorizedMessage dto.signerPublicKey pending.accountId))
          | some signerInfo =>
            let updated := signedEntity env pending dto signerInfo
            .ok (updated, saveRec store updated)

/-- `result.id ?? result.hash ?? null` of `submitToNetwork`. -/
def horizonTxId (ok : HorizonSubmitOk) : Option String :=
  match ok.id with
  | some v => some v
  | none => ok.hash

/-- The best-effort reason extracted in `submitToNetwork`'s catch block:
`err?.response?.data?.extras?.result_codes?.transaction ?? err?.message ?? 'Unknown error'`. -/
def extractReason (e : HorizonSubmitError) : String :=
  (e.resultCodeTransaction.getD (e.message.getD "Unknown error"))

/-- The record update of `submitToNetwork`'s success branch:
`status := SUBMITTED`, `submittedAt := now`, `stellarTxId := id ?? hash ?? null`. -/
def submittedEntity (pending : PendingTx) (now : Nat) (txId : Option String) :
    PendingTx :=
  { pending with status := .submitted, submittedAt := some now, stellarTxId := txId }

/-- The record update of `submitToNetwork`'s catch branch: `status := FAILED`. -/
def failedEntity (pending : PendingTx) : PendingTx :=
  { pending with status := .failed }

/-- `MultisigService.submitToNetwork`. `now` stands for `new Date()`. -/
def submitToNetwork (env : Env) (store : Store) (id : String) (now : Nat) :
    Except SvcError (SubmitTransactionResultDto × Store) :=
  match findOneById store id with
  | none => .error (.notFound (txNotFoundMessage id))
  | some pending =>
    if pending.status ≠ TxStatus.ready then
      .error (.badRequest (notReadyMessage pending))
    else
      match env.submitTransaction pending.transactionXdr with
      | .ok res =>
        let updated := submittedEntity pending now (horizonTxId res)
        .ok ({ success := true
               stellarTxId := horizonTxId res
               message := none
               pendingTransactionId := some id },
             saveRec store updated)
      | .error err =>
        let msg := extractReason err
        let updated := failedEntity pending
        .ok ({ success := false
               stellarTxId := none
               message := some msg
               pendingTransactionId := some id },
             saveRec store updated)

/-- The row predicate of `expireStaleTransactions`'s UPDATE:
`status IN (PENDING, READY) AND expires_at_ledger IS NOT NULL
AND expires_at_ledger < currentLedger`. -/
def staleRow (currentLedger : Nat) (r : PendingTx) : Bool :=
  (r.status == .pending || r.status == .ready) &&
    (match r.expiresAtLedger with
     | some e => decide (e < currentLedger)
     | none => false)

/-- Effect of the UPDATE on one row. -/
def expireOne (currentLedger : Nat) (r : PendingTx) : PendingTx :=
  if staleRow currentLedger r then { r with status := .expired } else r

/-- `MultisigService.expireStaleTransactions`: bulk UPDATE returning the
updated store and the affected row count. -/
def expireStaleTransactions (store : Store) (currentLedger : Nat) :
    Store × Nat :=
  (store.map (expireOne currentLedger), store.countP (staleRow currentLedger))

/-- The store after an operation: the saved store on success, unchanged when
the service threw (no `save` happens after a throw). -/
def storeAfter {α : Type} (store : Store) (res : Except SvcError (α × Store)) : Store :=
  match res with
  | .ok (_, s) => s
  | .error _ => store

-- ─── Transition system over the store ──────────────────────────────────────

/-- One service invocation, as a transition on the stored rows. The `fresh`
side condition on `create` models the database generating an unused primary
key for the insert. Each step may use its own environment (network responses
vary between calls). -/
inductive Step : Store → Store → Prop where
  | create (env : Env) (s : Store) (dto : CreatePendingTransactionDto)
      (newId : String) (fresh : ∀ r ∈ s, r.id ≠ newId) :
      Step s (storeAfter s (createPendingTransaction env s dto newId))
  | sign (env : Env) (s : Store) (dto : SubmitSignatureDto) :
      Step s (storeAfter s (submitSignature env s dto))
  | submit (env : Env) (s : Store) (id : String) (now : Nat) :
      Step s (storeAfter s (submitToNetwork env s id now))
  | expire (s : Store) (currentLedger : Nat) :
      Step s (expireStaleTransactions s currentLedger).1

/-- A store is reachable when it arises from the empty store by service
invocations. -/
def Reachable (s : Store) : Prop :=
  Relation.ReflTransGen Step [] s

/-- The weight invariant of the specification:
`status ∈ {READY, SUBMITTED}` implies `collectedWeight ≥ requiredThreshold`. -/
def WeightInv (r : PendingTx) : Prop :=
  r.status = .ready ∨ r.status = .submitted → r.requiredThreshold ≤ r.collectedWeight

/-- Store well-formedness: primary keys are unique (the `id` column is the
primary key). -/
def WFStore (s : Store) : Prop :=
  (s.map (fun r => r.id)).Nodup

-- ─── Concrete test fixtures (used by witnesses and counterexamples) ────────

/-- A 2-of-2 account mirroring the repository's test setup: signers GKEY1 and
GKEY2 with weight 1 each, thresholds 0/2/3. -/
def acct2of2 : HorizonAccount :=
  { thresholds := { low_threshold := some 0, med_threshold := some 2,
                    high_threshold := some 3 }
    signers := [ { key := "GKEY1", weight := 1 }, { key := "GKEY2", weight := 1 } ] }

/-- Concrete collaborator environment. Keys "GACC"/"GKEY1"/"GKEY2"/"GKEY3"
parse; the fake scheme treats `pk ++ ":" ++ h` as the unique valid signature
over hash `h` by the owner of `pk`; three envelope texts decode:
"XDR0" (no embedded signatures, hash "HASH0"),
"XDR1" (no embedded signatures, hash "HASH1"),
"XDRDUP" (two identical embedded GKEY1 signatures, hash "HASHD"). -/
def testEnv : Env :=
  { validKey := fun k =>
      k == "GACC" || k == "GKEY1" || k == "GKEY2" || k == "GKEY3"
    verify := fun pk h sig => sig == pk ++ ":" ++ h
    signatureHint := fun pk => "hint-" ++ pk
    decodeTx := fun xdr =>
      if xdr == "XDR0" then some { hash := "HASH0", signatures := [], maxTime := none }
      else if xdr == "XDR1" then some { hash := "HASH1", signatures := [], maxTime := none }
      else if xdr == "XDRDUP" then
        some { hash := "HASHD"
               signatures := [ { hint := "hint-GKEY1", signature := "GKEY1:HASHD" },
                               { hint := "hint-GKEY1", signature := "GKEY1:HASHD" } ]
               maxTime := none }
      else none
    appendSig := fun xdr pk _ => xdr ++ "+" ++ pk
    loadAccount := fun acc =>
      if acc == "GACC" then .ok acct2of2 else .error .accountNotFound
    submitTransaction := fun _ => .ok { id := some "stellar-tx-1", hash := none } }

/-- Creation request for the unsigned envelope "XDR0". -/
def dtoCreate0 : CreatePendingTransactionDto :=
  { accountId := "GACC", transactionXdr := "XDR0", memo := none, metadata := none }

/-- Creation request for "XDRDUP", the envelope carrying two identical
decorated GKEY1 signatures. -/
def dtoCreateDup : CreatePendingTransactionDto :=
  { accountId := "GACC", transactionXdr := "XDRDUP", memo := none, metadata := none }

/-- The record `createPendingTransaction testEnv [] dtoCreate0 "id-0"` persists. -/
def created0 : PendingTx :=
  { id := "id-0", accountId := "GACC", transactionXdr := "XDR0",
    transactionHash := "HASH0", status := .pending, requiredThreshold := 2,
    collectedWeight := 0, signatures := [], pendingSigners := ["GKEY1", "GKEY2"],
    memo := none, metadata := none, expiresAtLedger := none,
    submittedAt := none, stellarTxId := none }

/-- The record `createPendingTransaction testEnv [] dtoCreateDup "id-d"`
persists: GKEY1's duplicated embedded signature appears twice and its weight
is counted twice, reaching the 2-of-2 threshold alone. -/
def recDup : PendingTx :=
  { id := "id-d", accountId := "GACC", transactionXdr := "XDRDUP",
    transactionHash := "HASHD", status := .ready, requiredThreshold := 2,
    collectedWeight := 2,
    signatures := [ { publicKey := "GKEY1", signature := "GKEY1:HASHD", weight := 1 },
                    { publicKey := "GKEY1", signature := "GKEY1:HASHD", weight := 1 } ],
    pendingSigners := ["GKEY2"],
    memo := none, metadata := none, expiresAtLedger := none,
    submittedAt := none, stellarTxId := none }

/-- An account with a degenerate medium threshold of 0 and one signer. -/
def acctMed0 : HorizonAccount :=
  { thresholds := { low_threshold := some 0, med_threshold := some 0,
                    high_threshold := some 0 }
    signers := [ { key := "GKEY1", weight := 1 } ] }

/-- `testEnv` with GACC configured as `acctMed0`. -/
def envMed0 : Env :=
  { testEnv with loadAccount := fun a =>
      if a == "GACC" then .ok acctMed0 else .error .accountNotFound }

/-- The record `createPendingTransaction envMed0 [] dtoCreate0 "id-c3"`
persists: `?? 1` does not fire on a present-but-zero medium threshold, so
`requiredThreshold = 0` and the record is READY with no signatures. -/
def recMed0 : PendingTx :=
  { id := "id-c3", accountId := "GACC", transactionXdr := "XDR0",
    transactionHash := "HASH0", status := .ready, requiredThreshold := 0,
    collectedWeight := 0, signatures := [], pendingSigners := ["GKEY1"],
    memo := none, metadata := none, expiresAtLedger := none,
    submittedAt := none, stellarTxId := none }

/-- The account-status DTO `getAccountMultisigStatus envMed0 "GACC"` returns. -/
def stMed0 : MultisigAccountStatusDto :=
  { accountId := "GACC", isMultisig := false, thresholdLow := some 0,
    thresholdMedium := some 0, thresholdHigh := some 0,
    signers := [ { publicKey := "GKEY1", weight := 1, hasSigned := false } ],
    totalWeight := 1 }

/-- `testEnv` whose ledger connection fails in transport for every account. -/
def envDown : Env :=
  { testEnv with loadAccount := fun _ => .error .transportFailure }

/-- A signature submission against record "tid" by GKEY1 with a signature
that is valid in the fake scheme. -/
def dtoTermSig : SubmitSignatureDto :=
  { pendingTransactionId := "tid", signerPublicKey := "GKEY1",
    signature := "GKEY1:HASH0" }

/-- A SUBMITTED (terminal) record. -/
def termRec : PendingTx :=
  { id := "tid", accountId := "GACC", transactionXdr := "XDR0",
    transactionHash := "HASH0", status := .submitted, requiredThreshold := 2,
    collectedWeight := 2, signatures := [], pendingSigners := [],
    memo := none, metadata := none, expiresAtLedger := none,
    submittedAt := some 5, stellarTxId := some "stellar-tx-0" }

/-- A PENDING record already carrying GKEY1's signature. -/
def pendRec1 : PendingTx :=
  { id := "pid", accountId := "GACC", transactionXdr := "XDR0",
    transactionHash := "HASH0", status := .pending, requiredThreshold := 2,
    collectedWeight := 1,
    signatures := [ { publicKey := "GKEY1", signature := "GKEY1:HASH0", weight := 1 } ],
    pendingSigners := ["GKEY2"],
    memo := none, metadata := none, expiresAtLedger := none,
    submittedAt := none, stellarTxId := none }

/-- A READY record with both signatures collected. -/
def readyRec : PendingTx :=
  { id := "rid", accountId := "GACC", transactionXdr := "XDR0",
    transactionHash := "HASH0", status := .ready, requiredThreshold := 2,
    collectedWeight := 2,
    signatures := [ { publicKey := "GKEY1", signature := "GKEY1:HASH0", weight := 1 },
                    { publicKey := "GKEY2", signature := "GKEY2:HASH0", weight := 1 } ],
    pendingSigners := [],
    memo := none, metadata := none, expiresAtLedger := none,
    submittedAt := none, stellarTxId := none }

/-- `testEnv` whose broadcast endpoint rejects with result code tx_bad_auth. -/
def envReject : Env :=
  { testEnv with submitTransaction := fun _ =>
      Except.error (HorizonSubmitError.mk (some "tx_bad_auth") none) }

-- ─── Store lemmas ──────────────────────────────────────────────────────────

theorem mem_of_findOneById {s : Store} {id : String} {r : PendingTx}
    (h : findOneById s id = some r) : r ∈ s ∧ r.id = id := by
  unfold findOneById at h
  refine ⟨List.mem_of_find?_eq_some h, ?_⟩
  have := List.find?_some h
  simpa using this

theorem mem_saveRec {s : Store} {r x : PendingTx} (h : x ∈ saveRec s r) :
    x = r ∨ x ∈ s := by
  unfold saveRec at h
  split at h
  · obtain ⟨y, hy, hxy⟩ := List.mem_map.mp h
    by_cases hid : y.id = r.id
    · simp [hid] at hxy
      exact Or.inl hxy.symm
    · simp [hid] at hxy
      exact Or.inr (hxy ▸ hy)
  · rcases List.mem_append.mp h with h' | h'
    · exact Or.inr h'
    · simp at h'
      exact Or.inl h'

theorem mem_saveRec_of_ne {s : Store} {r x : PendingTx} (hx : x ∈ s)
    (hne : x.id ≠ r.id) : x ∈ saveRec s r := by
  unfold saveRec
  split
  · exact List.mem_map.mpr ⟨x, hx, by simp [hne]⟩
  · exact List.mem_append.mpr (Or.inl hx)

theorem findOneByHash_append {s l : Store} {h : String}
    (hn : findOneByHash s h = none) :
    findOneByHash (s ++ l) h = findOneByHash l h := by
  unfold findOneByHash at *
  rw [List.find?_append, hn]
  rfl

theorem saveRec_fresh {s : Store} {r : PendingTx} (h : ∀ x ∈ s, x.id ≠ r.id) :
    saveRec s r = s ++ [r] := by
  have hany : List.any s (fun x => x.id == r.id) = false := by
    rw [List.any_eq_false]
    intro x hx
    simpa using h x hx
  unfold saveRec
  rw [hany]
  simp

-- ─── Small status and helper lemmas ────────────────────────────────────────

theorem terminal_iff {st : TxStatus} :
    st.isTerminal = true ↔ (st = .submitted ∨ st = .expired ∨ st = .failed) := by
  cases st <;> simp [TxStatus.isTerminal]

theorem not_terminal_iff {st : TxStatus} :
    st.isTerminal = false ↔ ¬(st = .submitted ∨ st = .expired ∨ st = .failed) := by
  cases st <;> simp [TxStatus.isTerminal]

theorem validatePublicKey_error {env : Env} {k : String} {e : SvcError}
    (h : validatePublicKey env k = .error e) :
    e = .badRequest (invalidKeyMessage k) := by
  unfold validatePublicKey at h
  split at h <;> simp_all

theorem getStatus_loadAccount_error {env : Env} {a : String}
    {err : LoadAccountError}
    (hv : env.validKey a = true) (he : env.loadAccount a = .error err) :
    getAccountMultisigStatus env a = .error (.notFound (accountNotFoundMessage a)) := by
  simp [getAccountMultisigStatus, validatePublicKey, hv, he]

-- ─── Success-shape lemmas for the service operations ───────────────────────

theorem create_ok_shape {env : Env} {s : Store} {dto : CreatePendingTransactionDto}
    {newId : String} {rec : PendingTx} {s' : Store}
    (h : createPendingTransaction env s dto newId = .ok (rec, s')) :
    ∃ tx st,
      env.validKey dto.accountId = true ∧
      env.decodeTx dto.transactionXdr = some tx ∧
      findOneByHash s tx.hash = none ∧
      getAccountMultisigStatus env dto.accountId = .ok st ∧
      rec = createdEntity env dto newId tx st ∧
      s' = saveRec s rec := by
  unfold createPendingTransaction at h
  split at h
  case _ e heq => simp at h
  case _ u heq =>
    have hv : env.validKey dto.accountId = true := by
      unfold validatePublicKey at heq
      split at heq <;> simp_all
    split at h
    · simp at h
    case _ tx htx =>
      split at h
      · simp at h
      case _ hhash =>
        split at h
        · simp at h
        case _ st hst =>
          refine ⟨tx, st, hv, htx, hhash, hst, ?_⟩
          simp only [Except.ok.injEq, Prod.mk.injEq] at h
          obtain ⟨hrec, hs⟩ := h
          exact ⟨hrec.symm, by rw [hs.symm, hrec]⟩

theorem sign_ok_shape {env : Env} {s : Store} {dto : SubmitSignatureDto}
    {rec : PendingTx} {s' : Store}
    (h : submitSignature env s dto = .ok (rec, s')) :
    ∃ pending signerInfo st,
      findOneById s dto.pendingTransactionId = some pending ∧
      pending.status.isTerminal = false ∧
      pending.signatures.find? (fun x => x.publicKey == dto.signerPublicKey) = none ∧
      env.verify dto.signerPublicKey pending.transactionHash dto.signature = true ∧
      getAccountMultisigStatus env pending.accountId = .ok st ∧
      st.signers.find? (fun x => x.publicKey == dto.signerPublicKey) = some signerInfo ∧
      rec = signedEntity env pending dto signerInfo ∧
      s' = saveRec s rec := by
  unfold submitSignature at h
  split at h
  · simp at h
  split at h
  · simp at h
  case _ pending hfind =>
    split at h
    · simp at h
    case _ hterm =>
      split at h
      · simp at h
      case _ hdup =>
        split at h
        · simp at h
        case _ hver =>
          split at h
          · simp at h
          case _ st hst =>
            split at h
            · simp at h
            case _ signerInfo hsi =>
              refine ⟨pending, signerInfo, st, hfind, not_terminal_iff.mpr hterm,
                hdup, by simpa using hver, hst, hsi, ?_⟩
              simp only [Except.ok.injEq, Prod.mk.injEq] at h
              obtain ⟨hrec, hs⟩ := h
              exact ⟨hrec.symm, by rw [hs.symm, hrec]⟩

theorem submitNet_ok_shape {env : Env} {s : Store} {id : String} {now : Nat}
    {res : SubmitTransactionResultDto} {s' : Store}
    (h : submitToNetwork env s id now = .ok (res, s')) :
    ∃ pending,
      findOneById s id = some pending ∧ pending.status = .ready ∧
      ((∃ okr, env.submitTransaction pending.transactionXdr = .ok okr ∧
          res = { success := true, stellarTxId := horizonTxId okr,
                  message := none, pendingTransactionId := some id } ∧
          s' = saveRec s (submittedEntity pending now (horizonTxId okr))) ∨
       (∃ err, env.submitTransaction pending.transactionXdr = .error err ∧
          res = { success := false, stellarTxId := none,
                  message := some (extractReason err),
                  pendingTransactionId := some id } ∧
          s' = saveRec s (failedEntity pending))) := by
  unfold submitToNetwork at h
  split at h
  · simp at h
  case _ pending hfind =>
    split at h
    · simp at h
    case _ hready =>
      have hr : pending.status = .ready := by
        by_contra hc
        exact hready hc
      split at h
      case _ okr hok =>
        simp only [Except.ok.injEq, Prod.mk.injEq] at h
        exact ⟨pending, hfind, hr, Or.inl ⟨okr, hok, h.1.symm, h.2.symm⟩⟩
      case _ err herr =>
        simp only [Except.ok.injEq, Prod.mk.injEq] at h
        exact ⟨pending, hfind, hr, Or.inr ⟨err, herr, h.1.symm, h.2.symm⟩⟩

-- ─── Error-branch lemmas for the service operations ────────────────────────

theorem submitSignature_terminal_rejected {env : Env} {s : Store}
    {dto : SubmitSignatureDto} {r : PendingTx}
    (hv : env.validKey dto.signerPublicKey = true)
    (hfind : findOneById s dto.pendingTransactionId = some r)
    (hterm : r.status.isTerminal = true) :
    submitSignature env s dto = .error (.badRequest (badStatusMessage r.status)) := by
  simp [submitSignature, validatePublicKey, hv, hfind, terminal_iff.mp hterm]

theorem submitSignature_dup_rejected {env : Env} {s : Store}
    {dto : SubmitSignatureDto} {r : PendingTx} {entry : SignatureEntry}
    (hv : env.validKey dto.signerPublicKey = true)
    (hfind : findOneById s dto.pendingTransactionId = some r)
    (hterm : r.status.isTerminal = false)
    (hdup : r.signatures.find? (fun x => x.publicKey == dto.signerPublicKey)
      = some entry) :
    submitSignature env s dto
      = .error (.conflict (dupSignerMessage dto.signerPublicKey)) := by
  simp [submitSignature, validatePublicKey, hv, hfind,
    not_terminal_iff.mp hterm, hdup]

theorem submitSignature_verify_rejected {env : Env} {s : Store}
    {dto : SubmitSignatureDto} {r : PendingTx}
    (hv : env.validKey dto.signerPublicKey = true)
    (hfind : findOneById s dto.pendingTransactionId = some r)
    (hterm : r.status.isTerminal = false)
    (hdup : r.signatures.find? (fun x => x.publicKey == dto.signerPublicKey) = none)
    (hver : env.verify dto.signerPublicKey r.transactionHash dto.signature = false) :
    submitSignature env s dto = .error (.badRequest verifyFailedMessage) := by
  simp [submitSignature, validatePublicKey, hv, hfind,
    not_terminal_iff.mp hterm, hdup, hver]

theorem submitSignature_gateway_error {env : Env} {s : Store}
    {dto : SubmitSignatureDto} {r : PendingTx} {err : LoadAccountError}
    (hv : env.validKey dto.signerPublicKey = true)
    (hfind : findOneById s dto.pendingTransactionId = some r)
    (hterm : r.status.isTerminal = false)
    (hdup : r.signatures.find? (fun x => x.publicKey == dto.signerPublicKey) = none)
    (hver : env.verify dto.signerPublicKey r.transactionHash dto.signature = true)
    (hva : env.validKey r.accountId = true)
    (hla : env.loadAccount r.accountId = .error err) :
    submitSignature env s dto
      = .error (.notFound (accountNotFoundMessage r.accountId)) := by
  have hgw := @getStatus_loadAccount_error env r.accountId err hva hla
  simp [submitSignature, validatePublicKey, hv, hfind,
    not_terminal_iff.mp hterm, hdup, hver, hgw]

theorem submitSignature_invalid_key {env : Env} {s : Store}
    {dto : SubmitSignatureDto}
    (hv : env.validKey dto.signerPublicKey = false) :
    submitSignature env s dto
      = .error (.badRequest (invalidKeyMessage dto.signerPublicKey)) := by
  simp [submitSignature, validatePublicKey, hv]

theorem submitToNetwork_not_ready {env : Env} {s : Store} {id : String}
    {now : Nat} {r : PendingTx}
    (hfind : findOneById s id = some r)
    (hnr : r.status ≠ .ready) :
    submitToNetwork env s id now = .error (.badRequest (notReadyMessage r)) := by
  simp [submitToNetwork, hfind, hnr]

theorem create_dup_rejected {env : Env} {s : Store}
    {dto : CreatePendingTransactionDto} {newId : String} {tx : ParsedTx}
    {existing : PendingTx}
    (hv : env.validKey dto.accountId = true)
    (htx : env.decodeTx dto.transactionXdr = some tx)
    (hdup : findOneByHash s tx.hash = some existing) :
    createPendingTransaction env s dto newId
      = .error (.conflict (dupHashMessage existing.id)) := by
  simp [createPendingTransaction, validatePublicKey, hv, htx, hdup]

-- ─── Entity-shape lemmas ───────────────────────────────────────────────────

theorem createdEntity_status (env : Env) (dto : CreatePendingTransactionDto)
    (newId : String) (tx : ParsedTx) (st : MultisigAccountStatusDto) :
    (createdEntity env dto newId tx st).status
      = (if (createdEntity env dto newId tx st).requiredThreshold
            ≤ (createdEntity env dto newId tx st).collectedWeight
         then .ready else .pending) := rfl

theorem signedEntity_status (env : Env) (pending : PendingTx)
    (dto : SubmitSignatureDto) (signerInfo : SignerInfoDto) :
    (signedEntity env pending dto signerInfo).status
      = (if (signedEntity env pending dto signerInfo).requiredThreshold
            ≤ (signedEntity env pending dto signerInfo).collectedWeight
         then .ready else .pending) := rfl

theorem expireOne_of_terminal {L : Nat} {r : PendingTx}
    (h : r.status.isTerminal = true) : expireOne L r = r := by
  rcases terminal_iff.mp h with h' | h' | h' <;> simp [expireOne, staleRow, h']

theorem expireOne_of_no_ledger_bound {L : Nat} {r : PendingTx}
    (h : r.expiresAtLedger = none) : expireOne L r = r := by
  simp [expireOne, staleRow, h]

-- ─── Invariant preservation over steps ─────────────────────────────────────

theorem eq_of_mem_of_id_eq {s : Store} (hwf : WFStore s) {a b : PendingTx}
    (ha : a ∈ s) (hb : b ∈ s) (hid : a.id = b.id) : a = b :=
  List.inj_on_of_nodup_map hwf ha hb hid

/-- Terminal records are never touched by any service invocation. -/
theorem step_preserves_terminal {s s' : Store} (hstep : Step s s')
    (hwf : WFStore s) {r : PendingTx} (hr : r ∈ s)
    (ht : r.status.isTerminal = true) : r ∈ s' := by
  cases hstep with
  | create env s dto newId fresh =>
    unfold storeAfter
    split
    case _ rec0 p heq =>
      obtain ⟨tx, st, _, _, _, _, hrec, hs'⟩ := create_ok_shape heq
      subst hs'
      subst hrec
      exact mem_saveRec_of_ne hr (fresh r hr)
    case _ => exact hr
  | sign env s dto =>
    unfold storeAfter
    split
    case _ rec0 p heq =>
      obtain ⟨pending, signerInfo, st, hfind, hnt, _, _, _, _, hrec, hs'⟩ :=
        sign_ok_shape heq
      obtain ⟨hpmem, hpid⟩ := mem_of_findOneById hfind
      subst hs'
      subst hrec
      refine mem_saveRec_of_ne hr ?_
      intro hideq
      have heqr := eq_of_mem_of_id_eq hwf hr hpmem hideq
      rw [heqr] at ht
      rw [ht] at hnt
      exact absurd hnt (by simp)
    case _ => exact hr
  | submit env s id now =>
    unfold storeAfter
    split
    case _ res0 p heq =>
      obtain ⟨pending, hfind, hready, hbr⟩ := submitNet_ok_shape heq
      obtain ⟨hpmem, hpid⟩ := mem_of_findOneById hfind
      have hne : r.id ≠ pending.id := by
        intro hideq
        have heqr := eq_of_mem_of_id_eq hwf hr hpmem hideq
        rw [heqr, hready] at ht
        exact absurd ht (by simp [TxStatus.isTerminal])
      rcases hbr with ⟨okr, _, _, hs'⟩ | ⟨err, _, _, hs'⟩
      · subst hs'
        exact mem_saveRec_of_ne hr hne
      · subst hs'
        exact mem_saveRec_of_ne hr hne
    case _ => exact hr
  | expire s L =>
    have hmem : expireOne L r ∈ (expireStaleTransactions s L).1 :=
      List.mem_map_of_mem (expireOne L) hr
    rwa [expireOne_of_terminal ht] at hmem

/-- Every service invocation preserves the weight invariant of every stored
row. -/
theorem step_preserves_weightInv {s s' : Store} (hstep : Step s s')
    (hinv : ∀ r ∈ s, WeightInv r) : ∀ r ∈ s', WeightInv r := by
  cases hstep with
  | create env s dto newId fresh =>
    intro r hr
    unfold storeAfter at hr
    split at hr
    case _ rec0 p heq =>
      obtain ⟨tx, st, _, _, _, _, hrec, hs'⟩ := create_ok_shape heq
      subst hs'
      subst hrec
      rcases mem_saveRec hr with h' | h'
      · rw [h']
        intro hst
        rw [createdEntity_status env dto newId tx st] at hst
        by_contra hlt
        rw [if_neg hlt] at hst
        rcases hst with hst | hst <;> simp at hst
      · exact hinv r h'
    case _ => exact hinv r hr
  | sign env s dto =>
    intro r hr
    unfold storeAfter at hr
    split at hr
    case _ rec0 p heq =>
      obtain ⟨pending, signerInfo, st, _, _, _, _, _, _, hrec, hs'⟩ :=
        sign_ok_shape heq
      subst hs'
      subst hrec
      rcases mem_saveRec hr with h' | h'
      · rw [h']
        intro hst
        rw [signedEntity_status env pending dto signerInfo] at hst
        by_contra hlt
        rw [if_neg hlt] at hst
        rcases hst with hst | hst <;> simp at hst
      · exact hinv r h'
    case _ => exact hinv r hr
  | submit env s id now =>
    intro r hr
    unfold storeAfter at hr
    split at hr
    case _ res0 p heq =>
      obtain ⟨pending, hfind, hready, hbr⟩ := submitNet_ok_shape heq
      obtain ⟨hpmem, _⟩ := mem_of_findOneById hfind
      have hpinv : pending.requiredThreshold ≤ pending.collectedWeight :=
        hinv pending hpmem (Or.inl hready)
      rcases hbr with ⟨okr, _, _, hs'⟩ | ⟨err, _, _, hs'⟩
      · subst hs'
        rcases mem_saveRec hr with h' | h'
        · rw [h']
          intro _
          exact hpinv
        · exact hinv r h'
      · subst hs'
        rcases mem_saveRec hr with h' | h'
        · rw [h']
          intro hst
          rcases hst with hst | hst <;> simp [failedEntity] at hst
        · exact hinv r h'
    case _ => exact hinv r hr
  | expire s L =>
    intro r hr
    obtain ⟨y, hy, hyr⟩ := List.mem_map.mp hr
    by_cases hstale : staleRow L y = true
    · rw [← hyr]
      unfold expireOne
      rw [if_pos hstale]
      intro hst
      rcases hst with hst | hst <;> simp at hst
    · rw [← hyr]
      unfold expireOne
      rw [if_neg hstale]
      exact hinv y hy

/-- The weight invariant holds of every record of every reachable store. -/
theorem reachable_weightInv {s : Store} (h : Reachable s) :
    ∀ r ∈ s, WeightInv r := by
  induction h with
  | refl => intro r hr; exact absurd hr (List.not_mem_nil r)
  | tail _ hstep ih => exact step_preserves_weightInv hstep ih

-- ─── Claim theorems ────────────────────────────────────────────────────────

/-- C1: a record whose status is SUBMITTED, FAILED or EXPIRED is frozen:
`submitSignature` on it always fails with BadRequest and leaves the store
unchanged; `submitToNetwork` on it fails with a BadRequest whose value is a
function of the stored record alone — the environment (hence the network
broadcast client) is universally quantified and never reached — also leaving
the store unchanged; and no service invocation (`Step`) removes or alters a
terminal record of a well-formed store. -/
theorem claim_terminal_states_frozen :
    (∀ (env : Env) (s : Store) (dto : SubmitSignatureDto) (r : PendingTx),
       findOneById s dto.pendingTransactionId = some r →
       r.status.isTerminal = true →
       (∃ msg, submitSignature env s dto = .error (.badRequest msg)) ∧
       storeAfter s (submitSignature env s dto) = s) ∧
    (∀ (env : Env) (s : Store) (id : String) (now : Nat) (r : PendingTx),
       findOneById s id = some r →
       r.status.isTerminal = true →
       submitToNetwork env s id now
         = .error (.badRequest (notReadyMessage r)) ∧
       storeAfter s (submitToNetwork env s id now) = s) ∧
    (∀ (s s' : Store), Step s s' → WFStore s →
       ∀ r ∈ s, r.status.isTerminal = true → r ∈ s') := by
  refine ⟨?_, ?_, ?_⟩
  · intro env s dto r hfind hterm
    by_cases hv : env.validKey dto.signerPublicKey = true
    · have h := submitSignature_terminal_rejected hv hfind hterm
      exact ⟨⟨_, h⟩, by rw [h]; rfl⟩
    · have hv' : env.validKey dto.signerPublicKey = false := by
        simpa using hv
      have h := @submitSignature_invalid_key env s dto hv'
      exact ⟨⟨_, h⟩, by rw [h]; rfl⟩
  · intro env s id now r hfind hterm
    have hnr : r.status ≠ .ready := by
      rcases terminal_iff.mp hterm with h | h | h <;> simp [h]
    have h := @submitToNetwork_not_ready env s id now r hfind hnr
    exact ⟨h, by rw [h]; rfl⟩
  · intro s s' hstep hwf r hr ht
    exact step_preserves_terminal hstep hwf hr ht

/-- Witness for C1 at concrete inputs: a SUBMITTED record in a singleton
store, a valid re-signature attempt, a resubmission attempt, and an expiry
sweep. -/
theorem claim_terminal_states_frozen_witness :
    ((∃ msg, submitSignature testEnv [termRec] dtoTermSig
        = .error (.badRequest msg)) ∧
      storeAfter [termRec] (submitSignature testEnv [termRec] dtoTermSig)
        = [termRec]) ∧
    (submitToNetwork testEnv [termRec] "tid" 7
        = .error (.badRequest (notReadyMessage termRec)) ∧
      storeAfter [termRec] (submitToNetwork testEnv [termRec] "tid" 7)
        = [termRec]) ∧
    termRec ∈ (expireStaleTransactions [termRec] 100).1 :=
  ⟨claim_terminal_states_frozen.1 testEnv [termRec] dtoTermSig termRec
      (by decide) (by decide),
   claim_terminal_states_frozen.2.1 testEnv [termRec] "tid" 7 termRec
      (by decide) (by decide),
   claim_terminal_states_frozen.2.2 [termRec] _
      (Step.expire [termRec] 100) (by simp [WFStore]) termRec (by simp)
      (by decide)⟩

/-- C5: after `createPendingTransaction` and after every accepted
`submitSignature` the status is READY exactly when
`collectedWeight ≥ requiredThreshold` (and PENDING otherwise), and every
record of every reachable store with status READY or SUBMITTED satisfies
`collectedWeight ≥ requiredThreshold`. -/
theorem claim_ready_iff_threshold :
    (∀ (env : Env) (s : Store) (dto : CreatePendingTransactionDto)
       (newId : String) (rec : PendingTx) (s' : Store),
       createPendingTransaction env s dto newId = .ok (rec, s') →
       rec.status = (if rec.requiredThreshold ≤ rec.collectedWeight
                     then .ready else .pending)) ∧
    (∀ (env : Env) (s : Store) (dto : SubmitSignatureDto)
       (rec : PendingTx) (s' : Store),
       submitSignature env s dto = .ok (rec, s') →
       rec.status = (if rec.requiredThreshold ≤ rec.collectedWeight
                     then .ready else .pending)) ∧
    (∀ (s : Store), Reachable s → ∀ r ∈ s,
       r.status = .ready ∨ r.status = .submitted →
       r.requiredThreshold ≤ r.collectedWeight) := by
  refine ⟨?_, ?_, ?_⟩
  · intro env s dto newId rec s' h
    obtain ⟨tx, st, _, _, _, _, hrec, _⟩ := create_ok_shape h
    rw [hrec]
    exact createdEntity_status env dto newId tx st
  · intro env s dto rec s' h
    obtain ⟨pending, si, st, _, _, _, _, _, _, hrec, _⟩ := sign_ok_shape h
    rw [hrec]
    exact signedEntity_status env pending dto si
  · intro s hs r hr hst
    exact reachable_weightInv hs r hr hst

/-- Witness for C5: the 2-of-2 account creation yields a PENDING record with
weight 0 below the threshold 2, and the created store is reachable. -/
theorem claim_ready_iff_threshold_witness :
    created0.status
      = (if created0.requiredThreshold ≤ created0.collectedWeight
         then .ready else .pending) :=
  claim_ready_iff_threshold.1 testEnv [] dtoCreate0 "id-0" created0 [created0]
    (by rfl)

/-- C7: resubmission by a signer who already has a `signatures` entry on a
non-terminal record is rejected with Conflict and nothing is persisted. The
environment — in particular `verify` — is universally quantified and the
conclusion is a fixed Conflict value, so the rejection is independent of
whether the resubmitted bytes verify: the duplicate-signer check precedes
cryptographic verification. -/
theorem claim_duplicate_signer_conflict :
    ∀ (env : Env) (s : Store) (dto : SubmitSignatureDto) (r : PendingTx)
      (entry : SignatureEntry),
      env.validKey dto.signerPublicKey = true →
      findOneById s dto.pendingTransactionId = some r →
      r.status.isTerminal = false →
      r.signatures.find? (fun x => x.publicKey == dto.signerPublicKey)
        = some entry →
      submitSignature env s dto
        = .error (.conflict (dupSignerMessage dto.signerPublicKey)) ∧
      storeAfter s (submitSignature env s dto) = s := by
  intro env s dto r entry hv hfind hterm hdup
  have h := submitSignature_dup_rejected hv hfind hterm hdup
  exact ⟨h, by rw [h]; rfl⟩

/-- Witness for C7: GKEY1 resubmits on `pendRec1` — with garbage signature
bytes that do not verify — and still gets the Conflict. -/
theorem claim_duplicate_signer_conflict_witness :
    submitSignature testEnv [pendRec1]
        { pendingTransactionId := "pid", signerPublicKey := "GKEY1",
          signature := "garbage" }
      = .error (.conflict (dupSignerMessage "GKEY1")) ∧
    storeAfter [pendRec1]
        (submitSignature testEnv [pendRec1]
          { pendingTransactionId := "pid", signerPublicKey := "GKEY1",
            signature := "garbage" })
      = [pendRec1] :=
  claim_duplicate_signer_conflict testEnv [pendRec1]
    { pendingTransactionId := "pid", signerPublicKey := "GKEY1",
      signature := "garbage" }
    pendRec1
    { publicKey := "GKEY1", signature := "GKEY1:HASH0", weight := 1 }
    (by decide) (by decide) (by decide) (by decide)

/-- C8: on a non-terminal record without a prior entry for the claimed
signer, a signature that does not verify against the record's stored
`transactionHash` is rejected with BadRequest "Signature verification
failed" and nothing is persisted. The environment's `loadAccount` is
universally quantified and the conclusion is a fixed value, so the check
uses only the stored hash and the supplied bytes, never the network. -/
theorem claim_bad_signature_rejected :
    ∀ (env : Env) (s : Store) (dto : SubmitSignatureDto) (r : PendingTx),
      env.validKey dto.signerPublicKey = true →
      findOneById s dto.pendingTransactionId = some r →
      r.status.isTerminal = false →
      r.signatures.find? (fun x => x.publicKey == dto.signerPublicKey) = none →
      env.verify dto.signerPublicKey r.transactionHash dto.signature = false →
      submitSignature env s dto = .error (.badRequest verifyFailedMessage) ∧
      storeAfter s (submitSignature env s dto) = s := by
  intro env s dto r hv hfind hterm hdup hver
  have h := submitSignature_verify_rejected hv hfind hterm hdup hver
  exact ⟨h, by rw [h]; rfl⟩

/-- Witness for C8: GKEY2 signs the hash, the bytes are claimed as GKEY1's
("wrong private key"), verification fails. -/
theorem claim_bad_signature_rejected_witness :
    submitSignature testEnv [pendRec1]
        { pendingTransactionId := "pid", signerPublicKey := "GKEY2",
          signature := "GKEY1:HASH0" }
      = .error (.badRequest verifyFailedMessage) ∧
    storeAfter [pendRec1]
        (submitSignature testEnv [pendRec1]
          { pendingTransactionId := "pid", signerPublicKey := "GKEY2",
            signature := "GKEY1:HASH0" })
      = [pendRec1] :=
  claim_bad_signature_rejected testEnv [pendRec1]
    { pendingTransactionId := "pid", signerPublicKey := "GKEY2",
      signature := "GKEY1:HASH0" }
    pendRec1 (by decide) (by decide) (by decide) (by decide) (by decide)

/-- C6: after a successful creation, a second creation over a byte-identical
envelope — any second environment agreeing on key validation and decoding,
its `loadAccount` unconstrained — fails with Conflict carrying the existing
record's id and persists nothing: the duplicate-hash check precedes the
account-policy fetch and every persistence side effect of the second call. -/
theorem claim_duplicate_hash_conflict :
    ∀ (env env2 : Env) (s : Store) (dto dto2 : CreatePendingTransactionDto)
      (newId newId2 : String) (rec : PendingTx) (s' : Store),
      createPendingTransaction env s dto newId = .ok (rec, s') →
      (∀ x ∈ s, x.id ≠ newId) →
      dto2.transactionXdr = dto.transactionXdr →
      env2.validKey dto2.accountId = true →
      env2.decodeTx dto2.transactionXdr = env.decodeTx dto.transactionXdr →
      createPendingTransaction env2 s' dto2 newId2
        = .error (.conflict (dupHashMessage rec.id)) ∧
      storeAfter s' (createPendingTransaction env2 s' dto2 newId2) = s' := by
  intro env env2 s dto dto2 newId newId2 rec s' h1 hfresh hxdr hv2 hdec
  obtain ⟨tx, st, hv1, htx, hnone, hst, hrec, hs'⟩ := create_ok_shape h1
  have hhash : rec.transactionHash = tx.hash := by rw [hrec]; rfl
  have hid : rec.id = newId := by rw [hrec]; rfl
  have hfresh' : ∀ x ∈ s, x.id ≠ rec.id := by
    intro x hx
    rw [hid]
    exact hfresh x hx
  have hs'' : s' = s ++ [rec] := by
    rw [hs']
    exact saveRec_fresh hfresh'
  have hfind : findOneByHash s' tx.hash = some rec := by
    rw [hs'', findOneByHash_append hnone]
    simp [findOneByHash, hhash]
  have h2 := @create_dup_rejected env2 s' dto2 newId2 tx rec hv2 (hdec.trans htx) hfind
  exact ⟨h2, by rw [h2]; rfl⟩

/-- Witness for C6: creating the same "XDR0" envelope twice against the
2-of-2 account. -/
theorem claim_duplicate_hash_conflict_witness :
    createPendingTransaction testEnv [created0] dtoCreate0 "id-1"
      = .error (.conflict (dupHashMessage "id-0")) ∧
    storeAfter [created0]
        (createPendingTransaction testEnv [created0] dtoCreate0 "id-1")
      = [created0] :=
  claim_duplicate_hash_conflict testEnv testEnv [] dtoCreate0 dtoCreate0
    "id-0" "id-1" created0 [created0] (by rfl) (by simp) rfl (by rfl) rfl

/-- C9: on a READY record, a rejected or failed broadcast makes
`submitToNetwork` return a `success := false` result carrying the extracted
reason — not a thrown error — and persist the record as FAILED; a successful
broadcast persists SUBMITTED with `submittedAt` and the network-returned
transaction id and returns `success := true` with that id. -/
theorem claim_submit_result :
    ∀ (env : Env) (s : Store) (id : String) (now : Nat) (r : PendingTx),
      findOneById s id = some r →
      r.status = .ready →
      (∀ err, env.submitTransaction r.transactionXdr = .error err →
         submitToNetwork env s id now
           = .ok ({ success := false, stellarTxId := none,
                    message := some (extractReason err),
                    pendingTransactionId := some id },
                  saveRec s (failedEntity r))) ∧
      (∀ okr, env.submitTransaction r.transactionXdr = .ok okr →
         submitToNetwork env s id now
           = .ok ({ success := true, stellarTxId := horizonTxId okr,
                    message := none, pendingTransactionId := some id },
                  saveRec s (submittedEntity r now (horizonTxId okr)))) := by
  intro env s id now r hfind hready
  constructor
  · intro err herr
    simp [submitToNetwork, hfind, hready, herr]
  · intro okr hok
    simp [submitToNetwork, hfind, hready, hok]

/-- Witness for C9: the READY record under a rejecting broadcast
(result code tx_bad_auth, as in the repository's unit test) and under a
successful one. -/
theorem claim_submit_result_witness :
    submitToNetwork envReject [readyRec] "rid" 9
      = .ok ({ success := false, stellarTxId := none,
               message := some "tx_bad_auth",
               pendingTransactionId := some "rid" },
             saveRec [readyRec] (failedEntity readyRec)) ∧
    submitToNetwork testEnv [readyRec] "rid" 9
      = .ok ({ success := true, stellarTxId := some "stellar-tx-1",
               message := none, pendingTransactionId := some "rid" },
             saveRec [readyRec] (submittedEntity readyRec 9 (some "stellar-tx-1"))) :=
  ⟨(claim_submit_result envReject [readyRec] "rid" 9 readyRec rfl rfl).1
      (HorizonSubmitError.mk (some "tx_bad_auth") none) rfl,
   (claim_submit_result testEnv [readyRec] "rid" 9 readyRec rfl rfl).2
      (HorizonSubmitOk.mk (some "stellar-tx-1") none) rfl⟩

/-- C10: every record `createPendingTransaction` persists has
`expiresAtLedger = null` (both branches of the creation-time conditional
produce null), and the expiry sweep only touches rows with a non-null
`expires_at_ledger`, so it never transitions such a record to EXPIRED —
it leaves it in the store unchanged for every ledger height. -/
theorem claim_created_never_expires :
    (∀ (env : Env) (s : Store) (dto : CreatePendingTransactionDto)
       (newId : String) (rec : PendingTx) (s' : Store),
       createPendingTransaction env s dto newId = .ok (rec, s') →
       rec.expiresAtLedger = none ∧ ∀ L, expireOne L rec = rec) ∧
    (∀ (L : Nat) (r : PendingTx), r.expiresAtLedger = none →
       expireOne L r = r) ∧
    (∀ (s : Store) (L : Nat) (r : PendingTx), r ∈ s →
       r.expiresAtLedger = none → r ∈ (expireStaleTransactions s L).1) := by
  refine ⟨?_, ?_, ?_⟩
  · intro env s dto newId rec s' h
    obtain ⟨tx, st, _, _, _, _, hrec, _⟩ := create_ok_shape h
    have hnone : rec.expiresAtLedger = none := by
      rw [hrec]
      simp [createdEntity]
    exact ⟨hnone, fun L => expireOne_of_no_ledger_bound hnone⟩
  · intro L r h
    exact expireOne_of_no_ledger_bound h
  · intro s L r hr h
    have hmem : expireOne L r ∈ (expireStaleTransactions s L).1 :=
      List.mem_map_of_mem _ hr
    rwa [expireOne_of_no_ledger_bound h] at hmem

/-- Witness for C10: the concrete created record, swept at ledger 100. -/
theorem claim_created_never_expires_witness :
    created0.expiresAtLedger = none ∧ expireOne 100 created0 = created0 :=
  ⟨(claim_created_never_expires.1 testEnv [] dtoCreate0 "id-0" created0
      [created0] (by rfl)).1,
   (claim_created_never_expires.1 testEnv [] dtoCreate0 "id-0" created0
      [created0] (by rfl)).2 100⟩

/-- C2 counterexample: with a ledger connection that fails in transport
(`transportFailure`, not "account not found"), `getAccountMultisigStatus`
on the well-formed id "GACC" reports NotFound — the claim states a transport
failure is never reported as NotFound but as a distinct retryable
Unavailable condition. The service's catch-all maps every `loadAccount`
failure to `NotFoundException`. -/
theorem claim_unavailable_counterexample :
    envDown.loadAccount "GACC" = .error .transportFailure ∧
    getAccountMultisigStatus envDown "GACC"
      = .error (.notFound (accountNotFoundMessage "GACC")) :=
  ⟨rfl, rfl⟩

/-- C2 amended: every `loadAccount` failure — account-not-found and
transport alike — surfaces from `getAccountMultisigStatus` as the NotFound
error (no distinct Unavailable condition exists); a policy-gateway failure
during signature submission propagates that same NotFound error and
persists nothing, so it never results in silent authorization. -/
theorem claim_gateway_failure_surfaces_notFound :
    (∀ (env : Env) (a : String) (err : LoadAccountError),
       env.validKey a = true → env.loadAccount a = .error err →
       getAccountMultisigStatus env a
         = .error (.notFound (accountNotFoundMessage a))) ∧
    (∀ (env : Env) (s : Store) (dto : SubmitSignatureDto) (r : PendingTx)
       (err : LoadAccountError),
       env.validKey dto.signerPublicKey = true →
       findOneById s dto.pendingTransactionId = some r →
       r.status.isTerminal = false →
       r.signatures.find? (fun x => x.publicKey == dto.signerPublicKey) = none →
       env.verify dto.signerPublicKey r.transactionHash dto.signature = true →
       env.validKey r.accountId = true →
       env.loadAccount r.accountId = .error err →
       submitSignature env s dto
         = .error (.notFound (accountNotFoundMessage r.accountId)) ∧
       storeAfter s (submitSignature env s dto) = s) := by
  constructor
  · intro env a err hv he
    exact getStatus_loadAccount_error hv he
  · intro env s dto r err hv hfind ht hd hver hva hla
    have h := submitSignature_gateway_error hv hfind ht hd hver hva hla
    exact ⟨h, by rw [h]; rfl⟩

/-- Witness for the amended C2: GKEY2 submits a valid signature while the
ledger connection is down. -/
theorem claim_gateway_failure_surfaces_notFound_witness :
    getAccountMultisigStatus envDown "GKEY3"
      = .error (.notFound (accountNotFoundMessage "GKEY3")) ∧
    submitSignature envDown [pendRec1]
        { pendingTransactionId := "pid", signerPublicKey := "GKEY2",
          signature := "GKEY2:HASH0" }
      = .error (.notFound (accountNotFoundMessage "GACC")) ∧
    storeAfter [pendRec1]
        (submitSignature envDown [pendRec1]
          { pendingTransactionId := "pid", signerPublicKey := "GKEY2",
            signature := "GKEY2:HASH0" })
      = [pendRec1] :=
  ⟨claim_gateway_failure_surfaces_notFound.1 envDown "GKEY3"
      .transportFailure (by decide) rfl,
   (claim_gateway_failure_surfaces_notFound.2 envDown [pendRec1]
      { pendingTransactionId := "pid", signerPublicKey := "GKEY2",
        signature := "GKEY2:HASH0" }
      pendRec1 .transportFailure (by decide) (by rfl) (by decide) (by rfl)
      (by decide) (by decide) rfl).1,
   (claim_gateway_failure_surfaces_notFound.2 envDown [pendRec1]
      { pendingTransactionId := "pid", signerPublicKey := "GKEY2",
        signature := "GKEY2:HASH0" }
      pendRec1 .transportFailure (by decide) (by rfl) (by decide) (by rfl)
      (by decide) (by decide) rfl).2⟩

/-- C3 counterexample: the account `acctMed0` has medium threshold 0, yet
the created proposal has `requiredThreshold = 0` — not the claimed 1 — and
is immediately READY with zero signatures: `?? 1` is nullish coalescing and
does not fire on a present-but-zero value. -/
theorem claim_medium_zero_counterexample :
    acctMed0.thresholds.med_threshold = some 0 ∧
    createPendingTransaction envMed0 [] dtoCreate0 "id-c3"
      = .ok (recMed0, [recMed0]) ∧
    recMed0.requiredThreshold = 0 ∧
    recMed0.status = .ready ∧
    recMed0.collectedWeight = 0 ∧
    recMed0.signatures = [] :=
  ⟨rfl, rfl, rfl, rfl, rfl, rfl⟩

/-- C3 amended: `requiredThreshold` is the account's medium threshold with a
fallback to 1 only when the medium threshold is absent (null/undefined);
when the medium threshold is present and 0, the created proposal has
`requiredThreshold = 0` and is immediately READY, satisfiable with zero
signatures. -/
theorem claim_required_threshold_nullish_fallback :
    ∀ (env : Env) (s : Store) (dto : CreatePendingTransactionDto)
      (newId : String) (rec : PendingTx) (s' : Store)
      (st : MultisigAccountStatusDto),
      createPendingTransaction env s dto newId = .ok (rec, s') →
      getAccountMultisigStatus env dto.accountId = .ok st →
      rec.requiredThreshold = st.thresholdMedium.getD 1 ∧
      (st.thresholdMedium = none → rec.requiredThreshold = 1) ∧
      (st.thresholdMedium = some 0 →
        rec.requiredThreshold = 0 ∧ rec.status = .ready) := by
  intro env s dto newId rec s' st h hst
  obtain ⟨tx, st', _, _, _, hst', hrec, _⟩ := create_ok_shape h
  have hsteq : st' = st := by
    rw [hst'] at hst
    simpa using hst
  subst hsteq
  have hthr : rec.requiredThreshold = st'.thresholdMedium.getD 1 := by
    rw [hrec]
    rfl
  refine ⟨hthr, ?_, ?_⟩
  · intro h0
    rw [hthr, h0]
    rfl
  · intro h0
    have hz : rec.requiredThreshold = 0 := by
      rw [hthr, h0]
      rfl
    refine ⟨hz, ?_⟩
    have hstatus := createdEntity_status env dto newId tx st'
    rw [← hrec] at hstatus
    rw [hstatus, hz]
    simp

/-- Witness for the amended C3: the medium-threshold-0 account. -/
theorem claim_required_threshold_nullish_fallback_witness :
    recMed0.requiredThreshold = 0 ∧ recMed0.status = .ready :=
  (claim_required_threshold_nullish_fallback envMed0 [] dtoCreate0 "id-c3"
    recMed0 [recMed0] stMed0 rfl rfl).2.2 rfl

/-- C4 (code defect): a proposal created from an envelope carrying two
identical valid decorated signatures by the single signer GKEY1 (weight 1)
receives two `signatures` entries for the same public key and
`collectedWeight = 2`, reaching the 2-of-2 threshold and READY status on
one signer's signature — `extractSignaturesFromEnvelope` performs no
duplicate filtering, violating the at-most-one-entry-per-key invariant. -/
theorem claim_duplicate_embedded_double_count :
    createPendingTransaction testEnv [] dtoCreateDup "id-d"
      = .ok (recDup, [recDup]) ∧
    recDup.signatures
      = [ { publicKey := "GKEY1", signature := "GKEY1:HASHD", weight := 1 },
          { publicKey := "GKEY1", signature := "GKEY1:HASHD", weight := 1 } ] ∧
    recDup.collectedWeight = 2 ∧
    recDup.requiredThreshold = 2 ∧
    recDup.status = .ready :=
  ⟨rfl, rfl, rfl, rfl, rfl⟩

end Multisig
